import Mathlib

/-!
Formal model of the auth-manager authentication service.

The Rust service in `src/auth/services.rs` orchestrates registration, login,
refresh-token rotation, logout and password change over a PostgreSQL store
accessed through the repositories in `src/db/repositories/`.  This file embeds
that code shallowly: the database is a `Db` record threaded through every
operation, machine integers (`i64` counters, unix timestamps in seconds) are
`Int`, UUIDs are `Nat` drawn from a monotone `nonce` counter, and random string
generation (UUID v4 secrets, bcrypt salts) is derandomised through the same
counter so that freshness becomes provable.  Fallible repository calls return
`Except`; the only failure the claims exercise (a failed login-attempt insert)
is driven by the fault flag `attempt_write_fails`.

External crates are modelled at their documented contracts:
* bcrypt (`src/auth/password.rs` wraps it): `mkBcrypt` tags the payload with a
  salt; `bcryptVerify` recovers the payload and compares.  This preserves the
  properties the service relies on: a hash verifies against its input, differs
  from the raw input, and distinct salts give distinct hashes.
* jsonwebtoken (`src/auth/jwt.rs` wraps it): a signed token is a record
  carrying the signing secret and the claims; verification checks the secret
  and the `exp` timestamp (the crate's optional decoding leeway is not
  modelled).
-/

deriving instance DecidableEq for Except

namespace AuthManager

/-- Unary string of `n` copies of `u`; the injective core of every generated
string (derandomised stand-in for UUID v4 randomness and bcrypt salts). -/
def unary (n : Nat) : String :=
  String.mk (List.replicate n 'u')

/-- Derandomised model of `uuid::Uuid::new_v4().to_string()`: the `n`-th random
string drawn from the nonce counter. -/
def mkUuid (n : Nat) : String :=
  "uuid-" ++ unary n

/-- Model of `bcrypt::hash` with explicit salt: a tagged string from which the
payload can be recovered (`"$2b$" ++ salt ++ "$" ++ payload`).  Real bcrypt is
one-way; the service never inverts a hash, so the tagged form is adequate and
keeps `bcryptVerify` executable. -/
def mkBcrypt (salt : Nat) (payload : String) : String :=
  "$2b$" ++ unary salt ++ "$" ++ payload

/-- Splits a character list at every dollar sign (empty groups kept). -/
def splitDollars : List Char → List (List Char)
  | [] => [[]]
  | c :: cs =>
    let r := splitDollars cs
    if c == '$' then [] :: r
    else
      match r with
      | [] => [[c]]
      | g :: gs => (c :: g) :: gs

/-- Model of `bcrypt::verify`: succeeds exactly when the stored hash is a
well-formed `mkBcrypt` digest of the candidate password. -/
def bcryptVerify (password hash : String) : Bool :=
  match splitDollars hash.data with
  | [] :: ['2', 'b'] :: _ :: rest => List.intercalate ['$'] rest == password.data
  | _ => false

/-- Row of the `users` table (`src/db/models/user.rs`). -/
structure User where
  id : Nat
  email : String
  username : String
  password_hash : Option String
  email_verified : Bool
  is_active : Bool
  created_at : Int
  updated_at : Int
  last_login_at : Option Int
deriving DecidableEq

/-- Row of the `refresh_tokens` table (`src/db/models/refresh_token.rs`). -/
structure RefreshToken where
  id : Nat
  user_id : Nat
  token_hash : String
  expires_at : Int
  created_at : Int
  updated_at : Int
deriving DecidableEq

/-- Row of the `login_attempts` table (`src/db/models/login_attempt.rs`). -/
structure LoginAttempt where
  id : Nat
  user_id : Option Nat
  success : Bool
  attempted_at : Int
  user_agent : Option String
deriving DecidableEq

/-- The PostgreSQL state threaded through every repository call, together with
the wall clock (`Utc::now()`, read once per service call), the derandomised
freshness counter, and the fault flag injecting `login_attempts` insert
failures (the only storage failure the spec's best-effort paths exercise). -/
structure Db where
  users : List User
  refresh_tokens : List RefreshToken
  login_attempts : List LoginAttempt
  now : Int
  nonce : Nat
  attempt_write_fails : Bool
deriving DecidableEq

/-- Repository-layer errors (`src/db/error.rs`). -/
inductive RepositoryError where
  | PoolError (msg : String)
  | NotFound (msg : String)
  | UniqueViolation (msg : String)
  | ForeignKeyViolation (msg : String)
  | DatabaseError (msg : String)
deriving DecidableEq

/-- Application error taxonomy (`src/error.rs`). -/
inductive AppError where
  | NotFound (msg : String)
  | Duplicate (msg : String)
  | DatabaseError (msg : String)
  | InvalidPassword
  | UserAlreadyExists
  | InvalidRefreshToken
  | RefreshTokenExpired
  | InvalidEmail
  | WeakPassword (msg : String)
  | PasswordHashingFailed (msg : String)
  | TokenGenerationFailed (msg : String)
  | InvalidTokenFormat
  | ValidationError (msg : String)
  | MissingField (msg : String)
  | InvalidInput (msg : String)
  | UnauthorizedAction (msg : String)
  | ResourceLocked (msg : String)
  | TooManyAttempts (msg : String)
  | InternalServerError (msg : String)
  | ConfigurationError (msg : String)
deriving DecidableEq

/-- Mapping `impl From<RepositoryError> for AppError` (`src/error.rs`). -/
def AppError.ofRepo : RepositoryError → AppError
  | .NotFound msg => .NotFound msg
  | .UniqueViolation msg => .Duplicate msg
  | .PoolError msg => .DatabaseError msg
  | .ForeignKeyViolation msg => .DatabaseError msg
  | .DatabaseError msg => .DatabaseError msg

namespace UserRepository

/-- Model of `UserRepository::find_by_email`: diesel `filter(email.eq(..)) .first(..).optional()`. -/
def find_by_email (σ : Db) (email : String) : Option User :=
  (σ.users.filter (fun u => u.email == email)).head?

/-- Model of `UserRepository::find_by_id`. -/
def find_by_id (σ : Db) (id : Nat) : Option User :=
  (σ.users.filter (fun u => u.id == id)).head?

/-- Model of `UserRepository::create`.  The database generates the row id
(derandomised to the nonce) and the timestamp defaults.  Modelled from the
spec for the column defaults, whose migrations are not under `src/`: new
accounts persist with `verified = false, active = true` and a null last
login. -/
def create (σ : Db) (email username : String) (password_hash : Option String) :
    User × Db :=
  let u : User :=
    { id := σ.nonce, email := email, username := username,
      password_hash := password_hash, email_verified := false, is_active := true,
      created_at := σ.now, updated_at := σ.now, last_login_at := none }
  (u, { σ with users := σ.users ++ [u], nonce := σ.nonce + 1 })

/-- Model of `UserRepository::update_password`: sets the hash column on every
row matching the id. -/
def update_password (σ : Db) (id : Nat) (hash : String) : Db :=
  { σ with users := σ.users.map (fun u =>
      if u.id == id then { u with password_hash := some hash } else u) }

/-- Model of `UserRepository::update_last_login`: a diesel `update ..
.get_result` which errors with `NotFound` when no row matches. -/
def update_last_login (σ : Db) (id : Nat) : Except RepositoryError Db :=
  if σ.users.any (fun u => u.id == id) then
    .ok { σ with users := σ.users.map (fun u =>
      if u.id == id then { u with last_login_at := some σ.now } else u) }
  else
    .error (.NotFound ("Record not found"))

end UserRepository

namespace RefreshTokenRepository

/-- Model of `RefreshTokenRepository::create`; the database generates the row
id and timestamps. -/
def create (σ : Db) (user_id : Nat) (token_hash : String) (expires_at : Int) :
    RefreshToken × Db :=
  let r : RefreshToken :=
    { id := σ.nonce, user_id := user_id, token_hash := token_hash,
      expires_at := expires_at, created_at := σ.now, updated_at := σ.now }
  (r, { σ with refresh_tokens := σ.refresh_tokens ++ [r], nonce := σ.nonce + 1 })

/-- Model of `RefreshTokenRepository::find_by_hash`: exact match on the
`token_hash` column, filtering out rows with `expires_at ≤ now`
(diesel `expires_at.gt(Utc::now())`). -/
def find_by_hash (σ : Db) (hash : String) : Option RefreshToken :=
  (σ.refresh_tokens.filter
    (fun r => r.token_hash == hash && decide (σ.now < r.expires_at))).head?

/-- Model of `RefreshTokenRepository::delete` (by row id). -/
def delete (σ : Db) (id : Nat) : Db :=
  { σ with refresh_tokens := σ.refresh_tokens.filter (fun r => !(r.id == id)) }

/-- Model of `RefreshTokenRepository::delete_by_user`. -/
def delete_by_user (σ : Db) (user_id : Nat) : Db :=
  { σ with refresh_tokens :=
      σ.refresh_tokens.filter (fun r => !(r.user_id == user_id)) }

end RefreshTokenRepository

namespace LoginAttemptRepository

/-- Model of `LoginAttemptRepository::create`.  The fault flag injects the
insert failure that the service's best-effort paths swallow. -/
def create (σ : Db) (user_id : Option Nat) (success : Bool)
    (user_agent : Option String) : Except RepositoryError (LoginAttempt × Db) :=
  if σ.attempt_write_fails then
    .error (.DatabaseError ("login attempt insert failed"))
  else
    let a : LoginAttempt :=
      { id := σ.nonce, user_id := user_id, success := success,
        attempted_at := σ.now, user_agent := user_agent }
    let σ1 : Db :=
      { σ with login_attempts := σ.login_attempts ++ [a], nonce := σ.nonce + 1 }
    .ok (a, σ1)

/-- Model of `LoginAttemptRepository::count_failed_attempts`: failed attempts
of the account strictly newer than `now - minutes` (diesel
`attempted_at.gt(now - Duration::minutes(minutes))`). -/
def count_failed_attempts (σ : Db) (user_id : Nat) (minutes : Int) : Int :=
  ((σ.login_attempts.filter (fun a =>
      a.user_id == some user_id && a.success == false
        && decide (σ.now - minutes * 60 < a.attempted_at))).length : Int)

end LoginAttemptRepository

namespace PasswordManager

/-- Model of `PasswordManager::hash` (`src/auth/password.rs`): bcrypt with a
fresh salt drawn from the nonce counter.  The Rust wrapper's hashing-failure
branch (bcrypt internal errors) is not modelled. -/
def hash (σ : Db) (password : String) : String × Db :=
  (mkBcrypt σ.nonce password, { σ with nonce := σ.nonce + 1 })

/-- Model of `PasswordManager::verify`; errors on malformed stored hashes are
not modelled (a malformed hash simply fails to verify). -/
def verify (password hash : String) : Bool :=
  bcryptVerify password hash

end PasswordManager

/-- Claims carried by an access token (`src/auth/jwt.rs`). -/
structure Claims where
  sub : Nat
  exp : Int
  iat : Int
deriving DecidableEq

/-- A signed token as produced by `jsonwebtoken::encode`: modelled as the
claims tagged with the signing secret (a symmetric MAC binds exactly this
data). -/
structure Jwt where
  secret : String
  sub : Nat
  exp : Int
  iat : Int
deriving DecidableEq

/-- The issuer configuration held by `AuthService` (`src/auth/jwt.rs`; the
TTL field is read through `expiration_hours()` in `src/auth/services.rs`). -/
structure JwtManager where
  secret : String
  expirationHours : Int
deriving DecidableEq

namespace JwtManager

/-- Model of `JwtManager::generate_token`: claims with
`exp = now + hours * 3600`, `iat = now`, signed with the manager's secret. -/
def generate_token (m : JwtManager) (user_id : Nat) (expires_in_hours : Int)
    (now : Int) : Jwt :=
  { secret := m.secret, sub := user_id,
    exp := now + expires_in_hours * 3600, iat := now }

/-- Model of `JwtManager::verify_token`, i.e. `jsonwebtoken::decode` with
default validation: reject a wrong signature or a passed expiry, otherwise
return the claims.  The crate's optional decoding leeway is not modelled. -/
def verify_token (m : JwtManager) (t : Jwt) (now : Int) :
    Except String Claims :=
  if !(t.secret == m.secret) then
    .error ("Token verification failed: InvalidSignature")
  else if t.exp < now then
    .error ("Token verification failed: ExpiredSignature")
  else
    .ok { sub := t.sub, exp := t.exp, iat := t.iat }

/-- Modelled from the spec: `JwtManager::generate_access_token`, called by
`AuthService` but absent from the `src/` snapshot of `jwt.rs` — the spec's
Token Issuer `issue(subjectId)` encodes expiry `now + configured TTL`. -/
def generate_access_token (m : JwtManager) (user_id : Nat) (now : Int) : Jwt :=
  m.generate_token user_id m.expirationHours now

/-- Modelled from the spec: `JwtManager::expiration_hours`, the configured TTL
accessor used by `AuthService` for `expires_in = hours * 3600`. -/
def expiration_hours (m : JwtManager) : Int :=
  m.expirationHours

end JwtManager

/-- Request DTO (`auth-manager-api/src/requests.rs`). -/
structure RegisterRequest where
  email : String
  username : String
  password : String
deriving DecidableEq

/-- Request DTO (`auth-manager-api/src/requests.rs`). -/
structure LoginRequest where
  email : String
  password : String
deriving DecidableEq

/-- Request DTO (`auth-manager-api/src/requests.rs`). -/
structure RefreshTokenRequest where
  refresh_token : String
deriving DecidableEq

/-- Public account view (`auth-manager-api/src/responses.rs`). -/
structure UserResponse where
  id : Nat
  email : String
  username : String
  email_verified : Bool
  is_active : Bool
  created_at : Int
deriving DecidableEq

/-- Login response DTO; `refresh_token` carries the raw secret
(`auth-manager-api/src/responses.rs`). -/
structure LoginResponse where
  access_token : Jwt
  refresh_token : String
  user : UserResponse
  expires_in : Int
deriving DecidableEq

/-- Refresh response DTO (`auth-manager-api/src/responses.rs`). -/
structure RefreshTokenResponse where
  access_token : Jwt
  expires_in : Int
deriving DecidableEq

/-- Mapping `impl From<User> for UserResponse` (`src/db/models/user.rs`). -/
def User.toResponse (u : User) : UserResponse :=
  { id := u.id, email := u.email, username := u.username,
    email_verified := u.email_verified, is_active := u.is_active,
    created_at := u.created_at }

namespace AuthService

/-- Constant `MAX_FAILED_ATTEMPTS` (`src/auth/services.rs`). -/
def MAX_FAILED_ATTEMPTS : Int := 5

/-- Constant `LOCKOUT_WINDOW_MINUTES` (`src/auth/services.rs`). -/
def LOCKOUT_WINDOW_MINUTES : Int := 15

/-- The weak-password message used by `register` and `change_password`. -/
def weakPasswordMsg : String :=
  "Password must be at least 8 characters with uppercase, lowercase and numbers"

/-- The lockout message produced by `login`'s `format!` with the two
constants interpolated. -/
def tooManyAttemptsMsg : String :=
  "Account temporarily locked after 5 failed attempts. Try again in 15 minutes."

/-- Model of `AuthService::is_valid_email`: contains both separators and has
byte length above 5 (Rust `str::len` counts bytes). -/
def is_valid_email (email : String) : Bool :=
  email.data.contains '@' && email.data.contains '.'
    && decide (5 < email.utf8ByteSize)

/-- Loop body of `AuthService::is_strong_password`: folds the three class
flags over the characters, returning early once all hold.  Rust's Unicode
`char::is_uppercase`/`is_lowercase` are modelled by the ASCII
`Char.isUpper`/`Char.isLower`; `is_ascii_digit` is `Char.isDigit`. -/
def strongLoop : List Char → Bool → Bool → Bool → Bool
  | [], upper, lower, digit => upper && lower && digit
  | c :: cs, upper, lower, digit =>
    let upper := upper || c.isUpper
    let lower := lower || c.isLower
    let digit := digit || c.isDigit
    if upper && lower && digit then true else strongLoop cs upper lower digit

/-- Model of `AuthService::is_strong_password`: byte length at least 8 and at
least one uppercase, one lowercase and one digit. -/
def is_strong_password (password : String) : Bool :=
  if password.utf8ByteSize < 8 then false
  else strongLoop password.data false false false

/-- The `let _ = LoginAttemptRepository::create(..)` pattern: a successful
insert persists, a failed one is logged and swallowed, leaving the store
untouched. -/
def recordAttempt (σ : Db) (user_id : Option Nat) (success : Bool)
    (user_agent : Option String) : Db :=
  match LoginAttemptRepository.create σ user_id success user_agent with
  | .ok (_, σ1) => σ1
  | .error _ => σ

/-- Model of `AuthService::register`. -/
def register (σ : Db) (req : RegisterRequest) :
    Except AppError UserResponse × Db :=
  if !(is_valid_email req.email) then
    (.error .InvalidEmail, σ)
  else if !(is_strong_password req.password) then
    (.error (.WeakPassword weakPasswordMsg), σ)
  else
    match UserRepository.find_by_email σ req.email with
    | some _ => (.error .UserAlreadyExists, σ)
    | none =>
      let (password_hash, σ1) := PasswordManager.hash σ req.password
      let (u, σ2) := UserRepository.create σ1 req.email req.username
        (some password_hash)
      (.ok u.toResponse, σ2)

/-- Model of `AuthService::login`.  Returns the service result (the response
body holding the raw refresh secret, paired with the bcrypt hash of that
secret destined for the HttpOnly cookie) together with the post-state. -/
def login (m : JwtManager) (σ : Db) (req : LoginRequest)
    (user_agent : Option String) :
    Except AppError (LoginResponse × String) × Db :=
  if !(is_valid_email req.email) then
    (.error .InvalidEmail, σ)
  else
    match UserRepository.find_by_email σ req.email with
    | none =>
      let σ1 := recordAttempt σ none false user_agent
      (.error (.NotFound ("User")), σ1)
    | some u =>
      if MAX_FAILED_ATTEMPTS ≤
          LoginAttemptRepository.count_failed_attempts σ u.id
            LOCKOUT_WINDOW_MINUTES then
        (.error (.TooManyAttempts tooManyAttemptsMsg), σ)
      else
        match u.password_hash with
        | none => (.error (.DatabaseError ("Password not set for user")), σ)
        | some password_hash =>
          if !(PasswordManager.verify req.password password_hash) then
            let σ1 := recordAttempt σ (some u.id) false user_agent
            (.error .InvalidPassword, σ1)
          else
            let access_token := m.generate_access_token u.id σ.now
            let refresh_token := mkUuid σ.nonce
            let σ1 : Db := { σ with nonce := σ.nonce + 1 }
            let (refresh_token_hash, σ2) := PasswordManager.hash σ1 refresh_token
            let (_created, σ3) := RefreshTokenRepository.create σ2 u.id
              refresh_token_hash (σ2.now + 7 * 86400)
            match UserRepository.update_last_login σ3 u.id with
            | .error e => (.error (AppError.ofRepo e), σ3)
            | .ok σ4 =>
              let σ5 := recordAttempt σ4 (some u.id) true user_agent
              (.ok ({ access_token := access_token,
                      refresh_token := refresh_token,
                      user := u.toResponse,
                      expires_in := m.expiration_hours * 3600 },
                    refresh_token_hash), σ5)

/-- Model of `AuthService::refresh_token`: exact-match lookup of the presented
string against stored `token_hash` values, then rotation (best-effort delete
of the matched row, creation of a fresh secret's hash). -/
def refresh_token (m : JwtManager) (σ : Db) (req : RefreshTokenRequest) :
    Except AppError (RefreshTokenResponse × String) × Db :=
  if req.refresh_token == "" then
    (.error .InvalidRefreshToken, σ)
  else
    match RefreshTokenRepository.find_by_hash σ req.refresh_token with
    | none => (.error .InvalidRefreshToken, σ)
    | some old_token =>
      if old_token.expires_at < σ.now then
        (.error .RefreshTokenExpired, σ)
      else
        let access_token := m.generate_access_token old_token.user_id σ.now
        let σ1 := RefreshTokenRepository.delete σ old_token.id
        let new_refresh_token := mkUuid σ1.nonce
        let σ2 : Db := { σ1 with nonce := σ1.nonce + 1 }
        let (new_refresh_token_hash, σ3) :=
          PasswordManager.hash σ2 new_refresh_token
        let (_r, σ4) := RefreshTokenRepository.create σ3 old_token.user_id
          new_refresh_token_hash (σ3.now + 7 * 86400)
        (.ok ({ access_token := access_token,
                expires_in := m.expiration_hours * 3600 },
              new_refresh_token_hash), σ4)

/-- Model of `AuthService::logout`. -/
def logout (σ : Db) (user_id : Nat) : Except AppError Unit × Db :=
  (.ok (), RefreshTokenRepository.delete_by_user σ user_id)

/-- Model of `AuthService::change_password`. -/
def change_password (σ : Db) (user_id : Nat) (old_password new_password : String) :
    Except AppError Unit × Db :=
  if !(is_strong_password new_password) then
    (.error (.WeakPassword weakPasswordMsg), σ)
  else
    match UserRepository.find_by_id σ user_id with
    | none => (.error (.NotFound ("User not found")), σ)
    | some u =>
      match u.password_hash with
      | none => (.error (.DatabaseError ("Password not set for user")), σ)
      | some password_hash =>
        if !(PasswordManager.verify old_password password_hash) then
          (.error .InvalidPassword, σ)
        else
          let (new_password_hash, σ1) := PasswordManager.hash σ new_password
          let σ2 := UserRepository.update_password σ1 user_id new_password_hash
          (.ok (), σ2)

end AuthService

/-- The bcrypt hash of the opaque secret that a successful login or rotation
generates when started from state `σ`: the secret is `mkUuid σ.nonce` and the
salt is the next nonce. -/
def freshSecretHash (σ : Db) : String :=
  mkBcrypt (σ.nonce + 1) (mkUuid σ.nonce)

/-- The refresh-token row that a successful login or rotation started from
state `σ` persists for account `uid` (7-day expiry). -/
def freshTokenRow (σ : Db) (uid : Nat) : RefreshToken :=
  { id := σ.nonce + 2, user_id := uid, token_hash := freshSecretHash σ,
    expires_at := σ.now + 7 * 86400, created_at := σ.now,
    updated_at := σ.now }

/-! Concrete fixtures used by witnesses and counterexamples. -/

/-- Issuer fixture: one-hour TTL, as in the service tests. -/
def wJwt : JwtManager :=
  { secret := "k", expirationHours := 1 }

/-- Account fixture whose password is the strong `Password1`. -/
def wUser : User :=
  { id := 1, email := "a@b.com", username := "alice",
    password_hash := some (mkBcrypt 0 ("Password1")), email_verified := false,
    is_active := true, created_at := 0, updated_at := 0, last_login_at := none }

/-- Account fixture with a null password hash (e.g. a federated identity). -/
def wUserNoPw : User :=
  { id := 2, email := "c@d.com", username := "carol",
    password_hash := none, email_verified := false, is_active := true,
    created_at := 0, updated_at := 0, last_login_at := none }

/-- Store fixture: the two accounts, no tokens, no attempts. -/
def wDbClean : Db :=
  { users := [wUser, wUserNoPw], refresh_tokens := [], login_attempts := [],
    now := 1000, nonce := 5, attempt_write_fails := false }

/-- A failed login attempt against `wUser`, `k` nonces into the history. -/
def wFailedAttempt (k : Nat) : LoginAttempt :=
  { id := 10 + k, user_id := some 1, success := false, attempted_at := 1000,
    user_agent := none }

/-- Store fixture in which `wUser` has five recent failed attempts. -/
def wDbLocked : Db :=
  { wDbClean with
    login_attempts :=
      [wFailedAttempt 0, wFailedAttempt 1, wFailedAttempt 2, wFailedAttempt 3,
        wFailedAttempt 4],
    nonce := 20 }

/-- An expired refresh-token row for `wUser` (expiry one hour in the past
relative to `wDbClean.now = 1000`). -/
def wExpiredRow : RefreshToken :=
  { id := 30, user_id := 1, token_hash := mkBcrypt 0 (mkUuid 1),
    expires_at := -2600, created_at := -10000, updated_at := -10000 }

/-- Store fixture holding only the expired refresh-token row. -/
def wDbExpired : Db :=
  { wDbClean with refresh_tokens := [wExpiredRow], nonce := 40 }

/-- A live refresh-token row for `wUser`. -/
def wLiveRow : RefreshToken :=
  { id := 31, user_id := 1, token_hash := mkBcrypt 2 (mkUuid 3),
    expires_at := 500000, created_at := 0, updated_at := 0 }

/-- Store fixture holding one live refresh-token row of `wUser`. -/
def wDbLive : Db :=
  { wDbClean with refresh_tokens := [wLiveRow], nonce := 40 }

/-- Login fixture call: `wUser` logs in with the correct password. -/
def wLoginCall : Except AppError (LoginResponse × String) × Db :=
  AuthService.login wJwt wDbClean
    { email := "a@b.com", password := "Password1" } none

/-- The raw refresh secret carried by the fixture login's response body. -/
def wRawSecret : String :=
  match wLoginCall.1 with
  | .ok (resp, _) => resp.refresh_token
  | .error _ => ""

/-! Auxiliary lemmas. -/

lemma unary_length (n : Nat) : (unary n).length = n := by
  show (List.replicate n 'u').length = n
  exact List.length_replicate n 'u'

lemma mkUuid_length (n : Nat) : (mkUuid n).length = 5 + n := by
  have h : ("uuid-" : String).length = 5 := rfl
  unfold mkUuid
  rw [String.length_append, unary_length, h]

lemma mkBcrypt_length (s : Nat) (p : String) :
    (mkBcrypt s p).length = 5 + s + p.length := by
  have h1 : ("$2b$" : String).length = 4 := rfl
  have h2 : ("$" : String).length = 1 := rfl
  unfold mkBcrypt
  rw [String.length_append, String.length_append, String.length_append,
    unary_length, h1, h2]
  omega

lemma mkBcrypt_mkUuid_length (s n : Nat) :
    (mkBcrypt s (mkUuid n)).length = 10 + s + n := by
  rw [mkBcrypt_length, mkUuid_length]
  omega

lemma String.ne_of_length_ne {a b : String} (h : a.length ≠ b.length) :
    a ≠ b :=
  fun hab => h (congrArg String.length hab)

lemma head?_mem {α : Type} {l : List α} {a : α} (h : l.head? = some a) :
    a ∈ l := by
  cases l with
  | nil => simp at h
  | cons b t =>
    simp [List.head?] at h
    simp [h]

lemma find_by_email_mem {σ : Db} {e : String} {u : User}
    (h : UserRepository.find_by_email σ e = some u) : u ∈ σ.users := by
  unfold UserRepository.find_by_email at h
  exact (List.mem_filter.mp (head?_mem h)).1

lemma any_id_of_mem {σ : Db} {u : User} (h : u ∈ σ.users) :
    σ.users.any (fun w => w.id == u.id) = true := by
  rw [List.any_eq_true]
  exact ⟨u, h, by simp⟩

lemma token_hash_beq_false {r : RefreshToken} {h : String}
    (hlt : r.token_hash.length < h.length) : (r.token_hash == h) = false := by
  rw [beq_eq_false_iff_ne]
  exact String.ne_of_length_ne (by omega)

lemma strongLoop_eq (cs : List Char) (u l d : Bool) :
    AuthService.strongLoop cs u l d =
      ((u || cs.any (fun c => c.isUpper)) && (l || cs.any (fun c => c.isLower))
        && (d || cs.any (fun c => c.isDigit))) := by
  induction cs generalizing u l d with
  | nil => simp [AuthService.strongLoop]
  | cons c cs ih =>
    simp only [AuthService.strongLoop, List.any_cons, ih]
    revert u l d
    generalize c.isUpper = a
    generalize c.isLower = b
    generalize c.isDigit = e
    generalize cs.any (fun x => x.isUpper) = A
    generalize cs.any (fun x => x.isLower) = B
    generalize cs.any (fun x => x.isDigit) = E
    revert a b e A B E
    decide

lemma is_strong_password_iff (p : String) :
    AuthService.is_strong_password p = true ↔
      (8 ≤ p.utf8ByteSize ∧ p.data.any (fun c => c.isUpper) = true
        ∧ p.data.any (fun c => c.isLower) = true
        ∧ p.data.any (fun c => c.isDigit) = true) := by
  unfold AuthService.is_strong_password
  rw [strongLoop_eq]
  by_cases h : p.utf8ByteSize < 8
  · rw [if_pos h]
    simp
    omega
  · rw [if_neg h]
    have h8 : 8 ≤ p.utf8ByteSize := by omega
    simp [h8]
    tauto

/-! Claim theorems. -/

/-- C3: when an existing account's rolling failed-attempt count over the
15-minute window has reached the threshold of 5, login fails with
`TooManyAttempts` and leaves the store untouched, even when the supplied
password is correct — the lockout check precedes password comparison. -/
theorem login_lockout_before_password_check
    (m : JwtManager) (σ : Db) (req : LoginRequest) (ua : Option String)
    (u : User) (ph : String)
    (hvalid : AuthService.is_valid_email req.email = true)
    (hfind : UserRepository.find_by_email σ req.email = some u)
    (hcount : AuthService.MAX_FAILED_ATTEMPTS ≤
      LoginAttemptRepository.count_failed_attempts σ u.id
        AuthService.LOCKOUT_WINDOW_MINUTES)
    (hhash : u.password_hash = some ph)
    (hpw : PasswordManager.verify req.password ph = true) :
    AuthService.login m σ req ua =
      (.error (.TooManyAttempts AuthService.tooManyAttemptsMsg), σ) := by
  simp [AuthService.login, hvalid, hfind, hcount]

/-- Witness for C3: five recent failures lock `wUser` out of a login with the
correct password. -/
theorem login_lockout_before_password_check_witness :
    AuthService.login wJwt wDbLocked
        { email := "a@b.com", password := "Password1" } none =
      (.error (.TooManyAttempts AuthService.tooManyAttemptsMsg), wDbLocked) :=
  login_lockout_before_password_check wJwt wDbLocked
    { email := "a@b.com", password := "Password1" } none wUser
    (mkBcrypt 0 ("Password1")) (by decide) (by decide) (by decide) (by decide)
    (by decide)

/-- C5: a login whose well-formed email resolves to no account records a
failed attempt with a null account id and fails with `NotFound`. -/
theorem login_unknown_email_records_null_attempt
    (m : JwtManager) (σ : Db) (req : LoginRequest) (ua : Option String)
    (hvalid : AuthService.is_valid_email req.email = true)
    (hfind : UserRepository.find_by_email σ req.email = none)
    (hwf : σ.attempt_write_fails = false) :
    AuthService.login m σ req ua =
      (.error (.NotFound ("User")),
        { σ with
          login_attempts := σ.login_attempts ++
            [{ id := σ.nonce, user_id := none, success := false,
               attempted_at := σ.now, user_agent := ua }],
          nonce := σ.nonce + 1 }) := by
  simp [AuthService.login, AuthService.recordAttempt,
    LoginAttemptRepository.create, hvalid, hfind, hwf]

/-- Witness for C5 at a concrete unknown address. -/
theorem login_unknown_email_records_null_attempt_witness :
    AuthService.login wJwt wDbClean { email := "x@y.com", password := "p" }
        none =
      (.error (.NotFound ("User")),
        { wDbClean with
          login_attempts := wDbClean.login_attempts ++
            [{ id := wDbClean.nonce, user_id := none, success := false,
               attempted_at := wDbClean.now, user_agent := none }],
          nonce := wDbClean.nonce + 1 }) :=
  login_unknown_email_records_null_attempt wJwt wDbClean
    { email := "x@y.com", password := "p" } none (by decide) (by decide)
    (by decide)

/-- C7: a token issued for subject `s` verifies to claims with subject `s`
while the clock is before issuance plus the configured TTL, and fails to
verify once the clock exceeds issuance plus the TTL. -/
theorem access_token_round_trip
    (m : JwtManager) (s : Nat) (tIssue tCheck : Int) :
    (tCheck < tIssue + m.expirationHours * 3600 →
      m.verify_token (m.generate_access_token s tIssue) tCheck =
        .ok { sub := s, exp := tIssue + m.expirationHours * 3600,
              iat := tIssue })
    ∧ (tIssue + m.expirationHours * 3600 < tCheck →
      (m.verify_token (m.generate_access_token s tIssue) tCheck).isOk
        = false) := by
  constructor
  · intro h
    simp only [JwtManager.verify_token, JwtManager.generate_access_token,
      JwtManager.generate_token, beq_self_eq_true, Bool.not_true]
    rw [if_neg (by simp), if_neg (by omega)]
  · intro h
    simp only [JwtManager.verify_token, JwtManager.generate_access_token,
      JwtManager.generate_token, beq_self_eq_true, Bool.not_true]
    rw [if_neg (by simp), if_pos (by omega)]
    rfl

/-- Witness for C7: a one-hour token for subject 7 verifies at second 10 and
fails to verify at second 4000. -/
theorem access_token_round_trip_witness :
    (wJwt.verify_token (wJwt.generate_access_token 7 0) 10 =
      .ok { sub := 7, exp := 0 + wJwt.expirationHours * 3600, iat := 0 })
    ∧ ((wJwt.verify_token (wJwt.generate_access_token 7 0) 4000).isOk
        = false) :=
  ⟨(access_token_round_trip wJwt 7 0 10).1 (by decide),
   (access_token_round_trip wJwt 7 0 4000).2 (by decide)⟩

/-- C10: an account whose stored password hash is null makes login (when not
locked out) and change-password fail with the database-class error
`Password not set for user` — not `InvalidPassword` — and the login failure
happens before password verification and attempt recording, so the store is
unchanged. -/
theorem null_password_hash_fails_with_database_error
    (m : JwtManager) (σ : Db) (req : LoginRequest) (ua : Option String)
    (u : User) (σ2 : Db) (uid : Nat) (oldPw newPw : String) (v : User)
    (hvalid : AuthService.is_valid_email req.email = true)
    (hfind : UserRepository.find_by_email σ req.email = some u)
    (hnph : u.password_hash = none)
    (hcount : LoginAttemptRepository.count_failed_attempts σ u.id
        AuthService.LOCKOUT_WINDOW_MINUTES < AuthService.MAX_FAILED_ATTEMPTS)
    (hstrong : AuthService.is_strong_password newPw = true)
    (hfind2 : UserRepository.find_by_id σ2 uid = some v)
    (hnph2 : v.password_hash = none) :
    AuthService.login m σ req ua =
      (.error (.DatabaseError ("Password not set for user")), σ)
    ∧ AuthService.change_password σ2 uid oldPw newPw =
      (.error (.DatabaseError ("Password not set for user")), σ2) := by
  constructor
  · simp [AuthService.login, hvalid, hfind, hnph, not_le.mpr hcount]
  · simp [AuthService.change_password, hstrong, hfind2, hnph2]

/-- Witness for C10: the fixture account with a null hash. -/
theorem null_password_hash_fails_with_database_error_witness :
    AuthService.login wJwt wDbClean
        { email := "c@d.com", password := "whatever" } none =
      (.error (.DatabaseError ("Password not set for user")), wDbClean)
    ∧ AuthService.change_password wDbClean 2 ("old") ("NewPass1") =
      (.error (.DatabaseError ("Password not set for user")), wDbClean) :=
  null_password_hash_fails_with_database_error wJwt wDbClean
    { email := "c@d.com", password := "whatever" } none wUserNoPw wDbClean 2
    ("old") ("NewPass1") wUserNoPw (by decide) (by decide) (by decide)
    (by decide) (by decide) (by decide) (by decide)

/-- C2 (divergence witness): a refresh-token row present in storage with
`expires_at` in the past makes `refresh_token` fail with
`InvalidRefreshToken`, not `RefreshTokenExpired` — the lookup filters out
expired rows, so the `RefreshTokenExpired` branch cannot fire for a row that
is already expired at lookup time. -/
theorem refresh_expired_stored_row_yields_invalid_refresh_token :
    (AuthService.refresh_token wJwt wDbExpired
        { refresh_token := wExpiredRow.token_hash }).1 =
      .error .InvalidRefreshToken
    ∧ wExpiredRow ∈ wDbExpired.refresh_tokens
    ∧ wExpiredRow.expires_at < wDbExpired.now := by
  refine ⟨rfl, by decide, by decide⟩

/-- C8: the outcome a login call returns does not depend on whether the
attempt-ledger insert fails — a failed write is swallowed, so wrong passwords
still yield `InvalidPassword`, unknown emails still yield `NotFound`, and
correct credentials still yield the token response; the ledger error is never
surfaced. -/
theorem login_result_independent_of_attempt_ledger_failures
    (m : JwtManager) (σ : Db) (req : LoginRequest) (ua : Option String) :
    (AuthService.login m { σ with attempt_write_fails := true } req ua).1 =
      (AuthService.login m { σ with attempt_write_fails := false } req ua).1
    := by
  have hfT : ∀ b, UserRepository.find_by_email
      { σ with attempt_write_fails := b } req.email =
      UserRepository.find_by_email σ req.email := fun _ => rfl
  have hcT : ∀ b i, LoginAttemptRepository.count_failed_attempts
      { σ with attempt_write_fails := b } i AuthService.LOCKOUT_WINDOW_MINUTES
      = LoginAttemptRepository.count_failed_attempts σ i
        AuthService.LOCKOUT_WINDOW_MINUTES := fun _ _ => rfl
  cases hv : AuthService.is_valid_email req.email with
  | false => simp [AuthService.login, hv]
  | true =>
    cases hfind : UserRepository.find_by_email σ req.email with
    | none => simp [AuthService.login, hv, hfT, hfind]
    | some u =>
      by_cases hl : AuthService.MAX_FAILED_ATTEMPTS ≤
          LoginAttemptRepository.count_failed_attempts σ u.id
            AuthService.LOCKOUT_WINDOW_MINUTES
      · simp [AuthService.login, hv, hfT, hfind, hcT, hl]
      · cases hph : u.password_hash with
        | none => simp [AuthService.login, hv, hfT, hfind, hcT, hl, hph]
        | some ph =>
          cases hpw : PasswordManager.verify req.password ph with
          | false =>
            simp [AuthService.login, hv, hfT, hfind, hcT, hl, hph, hpw]
          | true =>
            by_cases hany : σ.users.any (fun w => w.id == u.id) = true
            · simp [AuthService.login, hv, hfT, hfind, hcT, hl, hph, hpw,
                PasswordManager.hash, RefreshTokenRepository.create,
                UserRepository.update_last_login, hany,
                AuthService.recordAttempt, LoginAttemptRepository.create]
            · simp [AuthService.login, hv, hfT, hfind, hcT, hl, hph, hpw,
                PasswordManager.hash, RefreshTokenRepository.create,
                UserRepository.update_last_login, hany,
                AuthService.recordAttempt, LoginAttemptRepository.create]

/-- C6: logout deletes exactly the account's refresh-token rows, succeeds
again on the emptied account (idempotence, deleting zero rows is success),
and afterwards refreshing with any value whose stored matches all belonged to
that account fails with `InvalidRefreshToken`. -/
theorem logout_deletes_all_and_invalidates
    (m : JwtManager) (σ : Db) (uid : Nat) (t : String)
    (hown : ∀ r ∈ σ.refresh_tokens, r.token_hash = t → r.user_id = uid) :
    AuthService.logout σ uid =
      (.ok (), RefreshTokenRepository.delete_by_user σ uid)
    ∧ (∀ r ∈ (RefreshTokenRepository.delete_by_user σ uid).refresh_tokens,
        r.user_id ≠ uid)
    ∧ AuthService.logout (RefreshTokenRepository.delete_by_user σ uid) uid =
      (.ok (), RefreshTokenRepository.delete_by_user σ uid)
    ∧ (AuthService.refresh_token m
        (RefreshTokenRepository.delete_by_user σ uid)
        { refresh_token := t }).1 = .error .InvalidRefreshToken := by
  refine ⟨rfl, ?_, ?_, ?_⟩
  · intro r hr
    simp [RefreshTokenRepository.delete_by_user, List.mem_filter] at hr
    exact hr.2
  · have hff : (σ.refresh_tokens.filter (fun r => !(r.user_id == uid))).filter
        (fun r => !(r.user_id == uid)) =
        σ.refresh_tokens.filter (fun r => !(r.user_id == uid)) := by
      rw [List.filter_filter]
      simp
    unfold AuthService.logout RefreshTokenRepository.delete_by_user
    simp [hff]
  · have hnone : RefreshTokenRepository.find_by_hash
        (RefreshTokenRepository.delete_by_user σ uid) t = none := by
      unfold RefreshTokenRepository.find_by_hash
        RefreshTokenRepository.delete_by_user
      rw [List.head?_eq_none_iff]
      apply List.filter_eq_nil_iff.mpr
      intro r hr
      have hm := List.mem_filter.mp hr
      intro hq
      rw [Bool.and_eq_true, beq_iff_eq] at hq
      have huid := hown r hm.1 hq.1
      have hne := hm.2
      rw [huid] at hne
      simp at hne
    by_cases ht : t = ""
    · simp [AuthService.refresh_token, ht]
    · simp [AuthService.refresh_token, ht, hnone]

/-- Witness for C6: after logging user 1 out of `wDbLive`, refreshing with
the stored token value of the deleted row fails with `InvalidRefreshToken`.
-/
theorem logout_deletes_all_and_invalidates_witness :
    (AuthService.refresh_token wJwt
      (RefreshTokenRepository.delete_by_user wDbLive 1)
      { refresh_token := wLiveRow.token_hash }).1 =
      .error .InvalidRefreshToken :=
  (logout_deletes_all_and_invalidates wJwt wDbLive 1 wLiveRow.token_hash
    (by decide)).2.2.2

/-- Outcome of a refresh call depends only on the refresh-token rows and the
clock of the store it runs against. -/
lemma refresh_isOk_congr (m : JwtManager) (σa σb : Db) (t : String)
    (htok : σa.refresh_tokens = σb.refresh_tokens) (hnow : σa.now = σb.now) :
    (AuthService.refresh_token m σa { refresh_token := t }).1.isOk =
      (AuthService.refresh_token m σb { refresh_token := t }).1.isOk := by
  have hfind : RefreshTokenRepository.find_by_hash σa t =
      RefreshTokenRepository.find_by_hash σb t := by
    unfold RefreshTokenRepository.find_by_hash
    rw [htok, hnow]
  by_cases ht : t = ""
  · simp [AuthService.refresh_token, ht]
  · cases hf : RefreshTokenRepository.find_by_hash σb t with
    | none => simp [AuthService.refresh_token, ht, hfind, hf]
    | some row =>
      by_cases hexp : row.expires_at < σb.now
      · simp [AuthService.refresh_token, ht, hfind, hf, hnow, hexp]
      · simp [AuthService.refresh_token, ht, hfind, hf, hnow, hexp,
          Except.isOk, Except.toBool]

/-- C9: a successful change-password only rewrites the account's password
hash — the refresh-token table, the attempt ledger and the clock are
untouched, and any refresh call succeeds after the change exactly when it
succeeded before, so previously issued refresh tokens remain usable. -/
theorem change_password_only_touches_password_hash
    (m : JwtManager) (σ σ1 : Db) (uid : Nat) (oldPw newPw : String)
    (h : AuthService.change_password σ uid oldPw newPw = (.ok (), σ1)) :
    σ1.refresh_tokens = σ.refresh_tokens
    ∧ σ1.login_attempts = σ.login_attempts
    ∧ σ1.now = σ.now
    ∧ σ1.users = σ.users.map (fun u =>
        if u.id == uid then
          { u with password_hash := some (mkBcrypt σ.nonce newPw) }
        else u)
    ∧ ∀ t, (AuthService.refresh_token m σ1 { refresh_token := t }).1.isOk =
        (AuthService.refresh_token m σ { refresh_token := t }).1.isOk := by
  unfold AuthService.change_password at h
  cases hs : AuthService.is_strong_password newPw with
  | false => simp [hs] at h
  | true =>
    simp only [hs, Bool.not_true] at h
    cases hf : UserRepository.find_by_id σ uid with
    | none => simp [hf] at h
    | some u =>
      simp only [hf] at h
      cases hph : u.password_hash with
      | none => simp [hph] at h
      | some ph =>
        simp only [hph] at h
        cases hpw : PasswordManager.verify oldPw ph with
        | false => simp [hpw] at h
        | true =>
          simp only [hpw, Bool.not_true, Bool.false_eq_true, if_false,
            PasswordManager.hash, UserRepository.update_password,
            Prod.mk.injEq, true_and] at h
          subst h
          refine ⟨rfl, rfl, rfl, rfl, ?_⟩
          intro t
          exact refresh_isOk_congr m _ σ t rfl rfl

/-- Witness for C9: a concrete successful password change on `wDbClean`. -/
theorem change_password_only_touches_password_hash_witness :
    (UserRepository.update_password
        { wDbClean with nonce := wDbClean.nonce + 1 } 1
        (mkBcrypt wDbClean.nonce ("NewPass1"))).refresh_tokens =
      wDbClean.refresh_tokens :=
  (change_password_only_touches_password_hash wJwt wDbClean _ 1 ("Password1")
    ("NewPass1") (by decide)).1

/-- C4: register's checks fire in order — `InvalidEmail` exactly when the
email lacks the at sign, the dot, or byte length above 5; otherwise
`WeakPassword` exactly when the password is shorter than 8 bytes or lacks an
uppercase letter, a lowercase letter or a digit; otherwise
`UserAlreadyExists` exactly when the email already resolves to an account;
otherwise the account is created and its public view returned. -/
theorem register_checks_in_order (σ : Db) (req : RegisterRequest) :
    ((AuthService.register σ req).1 = .error .InvalidEmail ↔
      AuthService.is_valid_email req.email = false)
    ∧ ((AuthService.register σ req).1 =
          .error (.WeakPassword AuthService.weakPasswordMsg) ↔
        (AuthService.is_valid_email req.email = true ∧
          ¬(8 ≤ req.password.utf8ByteSize
            ∧ req.password.data.any (fun c => c.isUpper) = true
            ∧ req.password.data.any (fun c => c.isLower) = true
            ∧ req.password.data.any (fun c => c.isDigit) = true)))
    ∧ ((AuthService.register σ req).1 = .error .UserAlreadyExists ↔
        (AuthService.is_valid_email req.email = true
          ∧ AuthService.is_strong_password req.password = true
          ∧ (UserRepository.find_by_email σ req.email).isSome = true))
    ∧ (AuthService.is_valid_email req.email = true →
        AuthService.is_strong_password req.password = true →
        UserRepository.find_by_email σ req.email = none →
        AuthService.register σ req =
          (.ok { id := σ.nonce + 1, email := req.email,
                 username := req.username, email_verified := false,
                 is_active := true, created_at := σ.now },
            { σ with
              users := σ.users ++
                [{ id := σ.nonce + 1, email := req.email,
                   username := req.username,
                   password_hash := some (mkBcrypt σ.nonce req.password),
                   email_verified := false, is_active := true,
                   created_at := σ.now, updated_at := σ.now,
                   last_login_at := none }],
              nonce := σ.nonce + 2 })) := by
  have hX := is_strong_password_iff req.password
  refine ⟨?_, ?_, ?_, ?_⟩
  · cases hv : AuthService.is_valid_email req.email with
    | false => simp [AuthService.register, hv]
    | true =>
      cases hs : AuthService.is_strong_password req.password with
      | false => simp [AuthService.register, hv, hs]
      | true =>
        cases hfind : UserRepository.find_by_email σ req.email with
        | none =>
          simp [AuthService.register, hv, hs, hfind, PasswordManager.hash,
            UserRepository.create]
        | some u => simp [AuthService.register, hv, hs, hfind]
  · cases hv : AuthService.is_valid_email req.email with
    | false =>
      exact iff_of_false (by simp [AuthService.register, hv])
        (fun hr => absurd hr.1 (by simp [hv]))
    | true =>
      cases hs : AuthService.is_strong_password req.password with
      | false =>
        have hnX : ¬(8 ≤ req.password.utf8ByteSize
            ∧ req.password.data.any (fun c => c.isUpper) = true
            ∧ req.password.data.any (fun c => c.isLower) = true
            ∧ req.password.data.any (fun c => c.isDigit) = true) :=
          fun hx => absurd (hX.mpr hx) (by simp [hs])
        exact iff_of_true (by simp [AuthService.register, hv, hs]) ⟨rfl, hnX⟩
      | true =>
        have hXt := hX.mp hs
        cases hfind : UserRepository.find_by_email σ req.email with
        | none =>
          exact iff_of_false
            (by simp [AuthService.register, hv, hs, hfind,
              PasswordManager.hash, UserRepository.create])
            (fun hr => hr.2 hXt)
        | some u =>
          exact iff_of_false
            (by simp [AuthService.register, hv, hs, hfind])
            (fun hr => hr.2 hXt)
  · cases hv : AuthService.is_valid_email req.email with
    | false => simp [AuthService.register, hv]
    | true =>
      cases hs : AuthService.is_strong_password req.password with
      | false => simp [AuthService.register, hv, hs]
      | true =>
        cases hfind : UserRepository.find_by_email σ req.email with
        | none =>
          simp [AuthService.register, hv, hs, hfind, PasswordManager.hash,
            UserRepository.create]
        | some u => simp [AuthService.register, hv, hs, hfind]
  · intro h1 h2 h3
    simp [AuthService.register, h1, h2, h3, PasswordManager.hash,
      UserRepository.create, User.toResponse]

/-- Witness for C4: registering a fresh strong account on `wDbClean`. -/
theorem register_checks_in_order_witness :
    AuthService.register wDbClean
        { email := "new@ex.com", username := "nat", password := "Password1" } =
      (.ok { id := wDbClean.nonce + 1, email := "new@ex.com",
             username := "nat", email_verified := false, is_active := true,
             created_at := wDbClean.now },
        { wDbClean with
          users := wDbClean.users ++
            [{ id := wDbClean.nonce + 1, email := "new@ex.com",
               username := "nat",
               password_hash := some (mkBcrypt wDbClean.nonce ("Password1")),
               email_verified := false, is_active := true,
               created_at := wDbClean.now, updated_at := wDbClean.now,
               last_login_at := none }],
          nonce := wDbClean.nonce + 2 }) :=
  (register_checks_in_order wDbClean
    { email := "new@ex.com", username := "nat", password := "Password1" }
    ).2.2.2 (by decide) (by decide) (by decide)

lemma freshSecretHash_length (σ : Db) :
    (freshSecretHash σ).length = 11 + 2 * σ.nonce := by
  unfold freshSecretHash
  rw [mkBcrypt_mkUuid_length]
  omega

lemma freshSecretHash_ne_empty (σ : Db) : ¬ freshSecretHash σ = "" := by
  apply String.ne_of_length_ne
  have h0 : ("" : String).length = 0 := rfl
  rw [freshSecretHash_length, h0]
  omega

/-- Shape of a successful login: the response body carries the raw secret
`mkUuid σ.nonce`, the second component is that secret's bcrypt hash, one
refresh-token row is appended, the clock is unchanged and the nonce counter
advances by at least 3. -/
lemma login_success_shape
    (m : JwtManager) (σ : Db) (req : LoginRequest) (ua : Option String)
    (u : User) (ph : String)
    (hvalid : AuthService.is_valid_email req.email = true)
    (hfind : UserRepository.find_by_email σ req.email = some u)
    (hcount : LoginAttemptRepository.count_failed_attempts σ u.id
        AuthService.LOCKOUT_WINDOW_MINUTES < AuthService.MAX_FAILED_ATTEMPTS)
    (hhash : u.password_hash = some ph)
    (hpw : PasswordManager.verify req.password ph = true) :
    ∃ σ5 : Db,
      AuthService.login m σ req ua =
        (.ok ({ access_token := m.generate_access_token u.id σ.now,
                refresh_token := mkUuid σ.nonce,
                user := u.toResponse,
                expires_in := m.expiration_hours * 3600 },
              freshSecretHash σ), σ5)
      ∧ σ5.refresh_tokens = σ.refresh_tokens ++ [freshTokenRow σ u.id]
      ∧ σ5.now = σ.now
      ∧ σ.nonce + 3 ≤ σ5.nonce := by
  have hany := any_id_of_mem (find_by_email_mem hfind)
  cases hwf : σ.attempt_write_fails with
  | true =>
    refine ⟨{ σ with
        users := σ.users.map (fun w =>
          if w.id == u.id then { w with last_login_at := some σ.now } else w),
        refresh_tokens := σ.refresh_tokens ++ [freshTokenRow σ u.id],
        nonce := σ.nonce + 3 }, ?_, rfl, rfl,
      by show σ.nonce + 3 ≤ σ.nonce + 3; omega⟩
    simp [AuthService.login, hvalid, hfind, not_le.mpr hcount, hhash, hpw,
      PasswordManager.hash, RefreshTokenRepository.create,
      UserRepository.update_last_login, hany, AuthService.recordAttempt,
      LoginAttemptRepository.create, hwf, freshTokenRow, freshSecretHash]
  | false =>
    refine ⟨{ σ with
        users := σ.users.map (fun w =>
          if w.id == u.id then { w with last_login_at := some σ.now } else w),
        refresh_tokens := σ.refresh_tokens ++ [freshTokenRow σ u.id],
        login_attempts := σ.login_attempts ++
          [{ id := σ.nonce + 3, user_id := some u.id, success := true,
             attempted_at := σ.now, user_agent := ua }],
        nonce := σ.nonce + 4 }, ?_, rfl, rfl,
      by show σ.nonce + 3 ≤ σ.nonce + 4; omega⟩
    simp [AuthService.login, hvalid, hfind, not_le.mpr hcount, hhash, hpw,
      PasswordManager.hash, RefreshTokenRepository.create,
      UserRepository.update_last_login, hany, AuthService.recordAttempt,
      LoginAttemptRepository.create, hwf, freshTokenRow, freshSecretHash]

/-- Shape of a successful rotation: the matched row is deleted, a fresh row
is appended, and the new cookie value is the fresh secret's hash. -/
lemma refresh_success_shape
    (m : JwtManager) (σ : Db) (t : String) (row : RefreshToken)
    (hne : ¬ t = "")
    (hfindr : RefreshTokenRepository.find_by_hash σ t = some row)
    (hexp : ¬ row.expires_at < σ.now) :
    AuthService.refresh_token m σ { refresh_token := t } =
      (.ok ({ access_token := m.generate_access_token row.user_id σ.now,
              expires_in := m.expiration_hours * 3600 },
            freshSecretHash σ),
        { σ with
          refresh_tokens :=
            σ.refresh_tokens.filter (fun r => !(r.id == row.id)) ++
              [freshTokenRow σ row.user_id],
          nonce := σ.nonce + 3 }) := by
  simp [AuthService.refresh_token, hne, hfindr, hexp,
    RefreshTokenRepository.delete, PasswordManager.hash,
    RefreshTokenRepository.create, freshTokenRow, freshSecretHash]

/-- C1 counterexample: a successful login hands the caller the raw refresh
secret in the response body, yet the very first `refresh_token` call with
that raw secret fails with `InvalidRefreshToken` — the lookup matches the
presented string against the stored bcrypt hash by exact string equality, so
only the returned hash (the cookie value) round-trips. -/
theorem refresh_with_received_raw_secret_fails_immediately :
    wLoginCall.1.isOk = true
    ∧ wRawSecret ≠ ""
    ∧ (AuthService.refresh_token wJwt wLoginCall.2
        { refresh_token := wRawSecret }).1 = .error .InvalidRefreshToken := by
  refine ⟨rfl, by decide, rfl⟩

/-- C1 (amended): after a successful login, the refresh-token value the
caller receives for the cookie — the bcrypt hash of the generated secret —
succeeds exactly once: the first `refresh_token` call with it returns a new
access-token response, and a second call with the same value fails with
`InvalidRefreshToken`. -/
theorem refresh_rotation_single_use_with_returned_hash
    (m : JwtManager) (σ : Db) (req : LoginRequest) (ua : Option String)
    (u : User) (ph : String)
    (hvalid : AuthService.is_valid_email req.email = true)
    (hfind : UserRepository.find_by_email σ req.email = some u)
    (hcount : LoginAttemptRepository.count_failed_attempts σ u.id
        AuthService.LOCKOUT_WINDOW_MINUTES < AuthService.MAX_FAILED_ATTEMPTS)
    (hhash : u.password_hash = some ph)
    (hpw : PasswordManager.verify req.password ph = true)
    (hfresh : ∀ r ∈ σ.refresh_tokens,
        r.token_hash.length < 11 + 2 * σ.nonce) :
    ∃ resp σ1 out2 σ2,
      AuthService.login m σ req ua = (.ok (resp, freshSecretHash σ), σ1)
      ∧ AuthService.refresh_token m σ1
          { refresh_token := freshSecretHash σ } = (.ok out2, σ2)
      ∧ (AuthService.refresh_token m σ2
          { refresh_token := freshSecretHash σ }).1 =
          .error .InvalidRefreshToken := by
  obtain ⟨σ5, hlogin, htok, hnow5, hnonce5⟩ :=
    login_success_shape m σ req ua u ph hvalid hfind hcount hhash hpw
  have hne : ¬ freshSecretHash σ = "" := freshSecretHash_ne_empty σ
  have holdbeq : ∀ r ∈ σ.refresh_tokens,
      (r.token_hash == freshSecretHash σ) = false := by
    intro r hr
    apply token_hash_beq_false
    rw [freshSecretHash_length]
    exact hfresh r hr
  have hfind1 : RefreshTokenRepository.find_by_hash σ5 (freshSecretHash σ) =
      some (freshTokenRow σ u.id) := by
    unfold RefreshTokenRepository.find_by_hash
    rw [htok]
    simp only [hnow5]
    rw [List.filter_append]
    have hA : σ.refresh_tokens.filter
        (fun r => r.token_hash == freshSecretHash σ
          && decide (σ.now < r.expires_at)) = [] :=
      List.filter_eq_nil_iff.mpr (fun r hr => by simp [holdbeq r hr])
    have hB : ([freshTokenRow σ u.id].filter
        (fun r => r.token_hash == freshSecretHash σ
          && decide (σ.now < r.expires_at))) = [freshTokenRow σ u.id] := by
      apply List.filter_eq_self.mpr
      intro r hr
      have hrr : r = freshTokenRow σ u.id := by simpa using hr
      rw [hrr]
      simp [freshTokenRow]
    rw [hA, hB]
    rfl
  have hexp1 : ¬ (freshTokenRow σ u.id).expires_at < σ5.now := by
    show ¬ σ.now + 7 * 86400 < σ5.now
    rw [hnow5]
    omega
  have hrefresh1 := refresh_success_shape m σ5 (freshSecretHash σ)
    (freshTokenRow σ u.id) hne hfind1 hexp1
  refine ⟨_, σ5, _, _, hlogin, hrefresh1, ?_⟩
  have hfind2 : RefreshTokenRepository.find_by_hash
      { σ5 with
        refresh_tokens :=
          σ5.refresh_tokens.filter
            (fun r => !(r.id == (freshTokenRow σ u.id).id)) ++
            [freshTokenRow σ5 ((freshTokenRow σ u.id).user_id)],
        nonce := σ5.nonce + 3 } (freshSecretHash σ) = none := by
    show ((σ5.refresh_tokens.filter
        (fun r => !(r.id == (freshTokenRow σ u.id).id)) ++
        [freshTokenRow σ5 ((freshTokenRow σ u.id).user_id)]).filter
        (fun r => r.token_hash == freshSecretHash σ
          && decide (σ5.now < r.expires_at))).head? = none
    rw [htok]
    simp only [hnow5]
    rw [List.head?_eq_none_iff]
    apply List.filter_eq_nil_iff.mpr
    intro r hr
    rcases List.mem_append.mp hr with hrA | hrB
    · have hm := List.mem_filter.mp hrA
      rcases List.mem_append.mp hm.1 with hrT | hrL
      · simp [holdbeq r hrT]
      · have hrr : r = freshTokenRow σ u.id := by simpa using hrL
        rw [hrr] at hm
        simp at hm
    · have hrr : r = freshTokenRow σ5 ((freshTokenRow σ u.id).user_id) := by
        simpa using hrB
      have hhigh : ((freshTokenRow σ5
          ((freshTokenRow σ u.id).user_id)).token_hash ==
          freshSecretHash σ) = false := by
        rw [beq_eq_false_iff_ne]
        apply String.ne_of_length_ne
        show (freshSecretHash σ5).length ≠ (freshSecretHash σ).length
        rw [freshSecretHash_length, freshSecretHash_length]
        omega
      rw [hrr]
      simp [hhigh]
  simp [AuthService.refresh_token, hne, hfind2]

/-- Witness for the amended C1: on `wDbClean`, refreshing with the returned
hash succeeds once and fails the second time. -/
theorem refresh_rotation_single_use_with_returned_hash_witness :
    (AuthService.refresh_token wJwt wLoginCall.2
      { refresh_token := freshSecretHash wDbClean }).1.isOk = true
    ∧ (AuthService.refresh_token wJwt
        (AuthService.refresh_token wJwt wLoginCall.2
          { refresh_token := freshSecretHash wDbClean }).2
        { refresh_token := freshSecretHash wDbClean }).1 =
        .error .InvalidRefreshToken := by
  obtain ⟨resp, σ1, out2, σ2, h1, h2, h3⟩ :=
    refresh_rotation_single_use_with_returned_hash wJwt wDbClean
      { email := "a@b.com", password := "Password1" } none wUser
      (mkBcrypt 0 ("Password1")) (by decide) (by decide) (by decide)
      (by decide) (by decide) (by decide)
  have e1 : wLoginCall.2 = σ1 := by
    unfold wLoginCall
    rw [h1]
  have e2 : (AuthService.refresh_token wJwt σ1
      { refresh_token := freshSecretHash wDbClean }).2 = σ2 := by
    rw [h2]
  constructor
  · rw [e1, h2]
    rfl
  · rw [e1, e2]
    exact h3

end AuthManager
